import Mathlib

/-!
Verification development for the ATS Resume Analyser application (app.py).

The Python code is shallowly embedded: Python strings are lists of
characters, Python byte buffers are lists of naturals, the JSON values
handled by the json standard library are an inductive type, and the
behaviour of the three external PDF libraries on a given uploaded file is
recorded as data on the file itself.  The module level namespace of app.py
(which names are bound by its import statements) is embedded explicitly,
because the extraction code refers to names that the module never imports.
-/

-- ============ Basic string model ============

/-- Python strings are modelled as lists of characters. -/
abbrev PyStr := List Char

/-- Literal helper: the characters of a Lean string literal. -/
def strLit (s : String) : PyStr := s.data

/-- The opening curly brace character. -/
def lbrace : Char := '\x7b'

/-- The closing curly brace character. -/
def rbrace : Char := '\x7d'

/-- Whitespace for the Python str.strip method: space, tab, newline,
carriage return, vertical tab, form feed. -/
def isPyWs (c : Char) : Bool :=
  c = ' ' || c = '\t' || c = '\n' || c = '\r' || c = '\x0b' || c = '\x0c'

/-- Python str.strip(): remove leading and trailing whitespace. -/
def stripPy (s : PyStr) : PyStr :=
  ((s.dropWhile isPyWs).reverse.dropWhile isPyWs).reverse

/-- Number of non-whitespace characters of a string (the quantity the
specification uses when describing the extraction thresholds). -/
def countNonWS (s : PyStr) : Nat :=
  (s.filter (fun c => !isPyWs c)).length

-- ============ Decimal digits (str of a natural number) ============

/-- Fuel-driven decimal rendering of a natural number. -/
def natDigitsAux : Nat → Nat → List Char
  | 0, _ => []
  | fuel + 1, n =>
    if n < 10 then [Char.ofNat (48 + n)]
    else natDigitsAux fuel (n / 10) ++ [Char.ofNat (48 + n % 10)]

/-- Decimal rendering of a natural number, as produced by the Python str
builtin on a nonnegative int. -/
def natDigits (n : Nat) : List Char := natDigitsAux (n + 1) n

-- ============ The module namespace of app.py ============

/-- Names bound at module level of app.py (lines 7 to 26: the import
statements) together with the module level functions and constants it
defines.  The names pdfplumber, fitz and PyPDF2, used inside
extract_text_from_pdf and get_file_stats, are absent: the module never
imports them, so every reference to them raises NameError at run time. -/
def moduleNames : List PyStr :=
  [ strLit "st", strLit "os", strLit "tempfile", strLit "json",
    strLit "datetime", strLit "base64", strLit "io", strLit "time",
    strLit "Groq", strLit "go", strLit "px", strLit "pd", strLit "Image",
    strLit "re",
    strLit "get_groq_client", strLit "AVAILABLE_MODELS",
    strLit "extract_text_from_pdf", strLit "get_file_stats",
    strLit "analyze_with_ai", strLit "create_gauge_chart",
    strLit "create_radar_chart", strLit "create_bar_chart",
    strLit "render_header", strLit "render_sidebar", strLit "main" ]

/-- Whether a global name is defined in the module namespace of app.py. -/
def moduleDefined (n : PyStr) : Bool := moduleNames.contains n

-- ============ Uploaded file and run time environment ============

/-- What pdfplumber would report for one page of the staged PDF:
the result of page.extract_text() (None or a string) and, for each table
found by page.extract_tables(), its number of rows. -/
structure PlumberPage where
  text : Option PyStr
  tables : List Nat

/-- An uploaded PDF file, together with the behaviour each of the three
external PDF libraries would exhibit on it (none meaning the library
open call would raise).  This data is only consulted on code paths where
the corresponding library name resolves. -/
structure UploadedFile where
  name : PyStr
  content : List Nat
  plumber : Option (List PlumberPage)
  fitzPages : Option (List PyStr)
  pypdfPages : Option (List (Option PyStr))

/-- Run time circumstances of one call to extract_text_from_pdf that are
outside the control of the code: whether writing the uploaded bytes to
the temporary file raises an OS error, and the message of that error. -/
structure PyEnv where
  writeFails : Bool
  errMsg : PyStr

-- ============ extract_text_from_pdf (app.py lines 146 to 208) ============

/-- Method 1 of the cascade (pdfplumber): per page text joined with blank
lines, plus a table annotation.  The name pdfplumber is looked up first;
when it is undefined the stage raises NameError, the bare except swallows
it, and the stage contributes nothing. -/
def method1 (f : UploadedFile) : PyStr :=
  if moduleDefined (strLit "pdfplumber") then
    match f.plumber with
    | none => []
    | some pages =>
      let textPart := pages.foldl
        (fun t p =>
          match p.text with
          | some pt => if pt.isEmpty then t else t ++ pt ++ strLit "\n\n"
          | none => t) []
      let tablesFound := pages.foldl
        (fun n p => n + (p.tables.filter (fun rows => rows ≠ 0)).length) 0
      if tablesFound ≠ 0 then
        textPart ++ strLit "\n\n[Detected " ++ natDigits tablesFound
          ++ strLit " tables in resume]\n"
      else textPart
  else []

/-- Method 2 of the cascade (fitz, PyMuPDF): page texts concatenated with
no separator.  The name fitz is undefined in app.py. -/
def method2 (f : UploadedFile) : PyStr :=
  if moduleDefined (strLit "fitz") then
    match f.fitzPages with
    | none => []
    | some pages => pages.foldl (fun t p => t ++ p) []
  else []

/-- Method 3 of the cascade (PyPDF2): per page text joined with blank
lines.  The name PyPDF2 is undefined in app.py. -/
def method3 (f : UploadedFile) : PyStr :=
  if moduleDefined (strLit "PyPDF2") then
    match f.pypdfPages with
    | none => []
    | some pages =>
      pages.foldl
        (fun t p =>
          match p with
          | some pt => if pt.isEmpty then t else t ++ pt ++ strLit "\n\n"
          | none => t) []
  else []

/-- The warning string returned when fewer than 51 characters remain after
stripping (app.py line 205). -/
def warnMsg : PyStr :=
  strLit "⚠️ Could not extract text. Please ensure PDF has selectable text (not scanned image)."

/-- Observable outcome of one call to extract_text_from_pdf: the returned
string, the fate of the temporary file staged for the PDF libraries, which
cascade stages were attempted, and the accumulated text after stages one
and two (the values the stage guards inspect). -/
structure ExtractResult where
  result : PyStr
  tempCreated : Bool
  tempDeleted : Bool
  attempted2 : Bool
  attempted3 : Bool
  textAfter1 : PyStr
  textAfter2 : PyStr

/-- Embedding of extract_text_from_pdf.  When the staging write raises,
the exception propagates to the outer except clause, which returns an
error string without reaching the os.unlink call, so the temporary file
survives.  Otherwise the three stages run behind their guards
(len(text.strip()) < 100), the temporary file is unlinked, and the
function returns either the first 5000 characters of the accumulated text
(when len(text.strip()) > 50) or the warning string. -/
def extract_text_from_pdf (env : PyEnv) (f : UploadedFile) : ExtractResult :=
  if env.writeFails then
    ⟨strLit "Error extracting PDF: " ++ env.errMsg,
      true, false, false, false, [], []⟩
  else
    let t1 := method1 f
    let a2 := decide ((stripPy t1).length < 100)
    let t2 := if a2 then t1 ++ method2 f else t1
    let a3 := decide ((stripPy t2).length < 100)
    let t3 := if a3 then t2 ++ method3 f else t2
    let res :=
      if 50 < (stripPy t3).length then t3.take 5000 else warnMsg
    ⟨res, true, true, a2, a3, t1, t2⟩

-- ============ get_file_stats (app.py lines 210 to 230) ============

/-- Statistics reported for an uploaded file. -/
structure FileStats where
  filename : PyStr
  size_mb : ℚ
  pages : Nat

/-- The fallback page counting strategy of get_file_stats (fitz); used
when the pdfplumber strategy raises.  The name fitz is undefined, so this
always raises NameError, leaving the page count at zero. -/
def fitzPageCount (f : UploadedFile) : Nat :=
  if moduleDefined (strLit "fitz") then
    match f.fitzPages with
    | some pages => pages.length
    | none => 0
  else 0

/-- Embedding of get_file_stats: the size in MB is the byte length divided
by 1024 * 1024; the page count is attempted through pdfplumber and then
fitz, both behind except clauses, and stays zero when both raise. -/
def get_file_stats (f : UploadedFile) : FileStats :=
  let pages :=
    if moduleDefined (strLit "pdfplumber") then
      match f.plumber with
      | some pages => pages.length
      | none => fitzPageCount f
    else fitzPageCount f
  ⟨f.name, (f.content.length : ℚ) / (1024 * 1024), pages⟩

-- ============ analyze_with_ai prompt templates (app.py lines 236 to 373) ============

/-- Fixed segments of the three prompt templates, transcribed from the
f-strings of analyze_with_ai.  Each user template is split at its two
interpolation points, so that the user prompt is
UserA ++ truncated job description ++ UserB ++ truncated resume ++ UserC
exactly as the f-string renders it. -/
def detSys : PyStr :=
  strLit "You are an expert HR Director with 20+ years experience in tech recruitment.\n"
  ++ strLit "            You analyze resumes against job descriptions with exceptional detail and accuracy.\n"
  ++ strLit "            Always provide actionable, specific feedback."

def detUserA : PyStr :=
  strLit "# COMPREHENSIVE RESUME ANALYSIS REPORT\n"
  ++ strLit "\n"
  ++ strLit "## JOB DESCRIPTION ANALYSIS:\n"

def detUserB : PyStr :=
  strLit "\n"
  ++ strLit "\n"
  ++ strLit "## RESUME CONTENT:\n"

def detUserC : PyStr :=
  strLit "\n"
  ++ strLit "\n"
  ++ strLit "## PLEASE PROVIDE:\n"
  ++ strLit "\n"
  ++ strLit "### 1. 🎯 EXECUTIVE SUMMARY\n"
  ++ strLit "- Overall Match Score: [0-100]%\n"
  ++ strLit "- One-line verdict\n"
  ++ strLit "- Confidence level: High/Medium/Low\n"
  ++ strLit "\n"
  ++ strLit "### 2. 📊 QUANTITATIVE ASSESSMENT\n"
  ++ strLit "**Skills Match:**\n"
  ++ strLit "- Technical Skills Alignment: [X/10]\n"
  ++ strLit "- Soft Skills Match: [X/10]\n"
  ++ strLit "- Tools & Technologies: [X/10]\n"
  ++ strLit "\n"
  ++ strLit "**Experience Evaluation:**\n"
  ++ strLit "- Years of Relevant Experience: [X] vs Required: [Y]\n"
  ++ strLit "- Role Relevance: [X/10]\n"
  ++ strLit "- Industry Experience: [X/10]\n"
  ++ strLit "\n"
  ++ strLit "### 3. ✅ STRENGTHS IDENTIFIED\n"
  ++ strLit "[List 5-7 specific strengths with examples from resume]\n"
  ++ strLit "\n"
  ++ strLit "### 4. ⚠️ AREAS FOR IMPROVEMENT\n"
  ++ strLit "[List 5-7 specific gaps with actionable solutions]\n"
  ++ strLit "\n"
  ++ strLit "### 5. 🔑 KEYWORD ANALYSIS\n"
  ++ strLit "- Top 10 Matching Keywords: [list]\n"
  ++ strLit "- Top 10 Missing Keywords: [list]\n"
  ++ strLit "- Keyword Density Score: [X/10]\n"
  ++ strLit "\n"
  ++ strLit "### 6. 📈 ATS OPTIMIZATION SCORE: [0-100]\n"
  ++ strLit "- Formatting: [X/10]\n"
  ++ strLit "- Readability: [X/10]\n"
  ++ strLit "- ATS Compliance: [X/10]\n"
  ++ strLit "\n"
  ++ strLit "### 7. 🎯 HIRING PROBABILITY PREDICTION\n"
  ++ strLit "- Pass ATS Screening: Yes/No/Maybe\n"
  ++ strLit "- Likelihood of Interview: High/Medium/Low\n"
  ++ strLit "- Estimated Shortlist Time: Immediate/1-3 days/1 week+\n"
  ++ strLit "\n"
  ++ strLit "### 8. 💡 ACTIONABLE RECOMMENDATIONS\n"
  ++ strLit "[Top 5 specific actions to improve resume]\n"
  ++ strLit "\n"
  ++ strLit "### 9. 📝 COVER LETTER TIPS\n"
  ++ strLit "[3 key points to highlight in cover letter]\n"
  ++ strLit "\n"
  ++ strLit "### 10. 🎯 FINAL VERDICT & NEXT STEPS\n"
  ++ strLit "\n"
  ++ strLit "Format with emojis, bold headings, and clear bullet points."

def atsSys : PyStr :=
  strLit "You are an ATS (Applicant Tracking System) algorithm expert.\n"
  ++ strLit "            You analyze resumes strictly like an ATS would.\n"
  ++ strLit "            Be objective, numerical, and data-driven."

def atsUserA : PyStr :=
  strLit "Generate ONLY a JSON response for ATS analysis:\n"
  ++ strLit "\n"
  ++ strLit "JOB DESCRIPTION:\n"

def atsUserB : PyStr :=
  strLit "\n"
  ++ strLit "\n"
  ++ strLit "RESUME CONTENT:\n"

def atsUserC : PyStr :=
  strLit "\n"
  ++ strLit "\n"
  ++ strLit "Return this EXACT JSON structure:\n"
  ++ strLit "\x7b\n"
  ++ strLit "    \"overall_score\": 0-100,\n"
  ++ strLit "    \"breakdown\": \x7b\n"
  ++ strLit "        \"keyword_match\": 0-100,\n"
  ++ strLit "        \"experience_match\": 0-100,\n"
  ++ strLit "        \"skills_match\": 0-100,\n"
  ++ strLit "        \"education_match\": 0-100,\n"
  ++ strLit "        \"formatting\": 0-100,\n"
  ++ strLit "        \"readability\": 0-100\n"
  ++ strLit "    \x7d,\n"
  ++ strLit "    \"prediction\": \x7b\n"
  ++ strLit "        \"pass_ats\": true/false,\n"
  ++ strLit "        \"interview_probability\": \"High/Medium/Low\",\n"
  ++ strLit "        \"shortlist_time\": \"Immediate/1-3 days/1 week+\"\n"
  ++ strLit "    \x7d,\n"
  ++ strLit "    \"keywords\": \x7b\n"
  ++ strLit "        \"matched\": [\"keyword1\", \"keyword2\", \"keyword3\", \"keyword4\", \"keyword5\"],\n"
  ++ strLit "        \"missing\": [\"keyword1\", \"keyword2\", \"keyword3\", \"keyword4\", \"keyword5\"],\n"
  ++ strLit "        \"suggested\": [\"keyword1\", \"keyword2\", \"keyword3\"]\n"
  ++ strLit "    \x7d,\n"
  ++ strLit "    \"improvements\": [\n"
  ++ strLit "        \"Improvement 1\",\n"
  ++ strLit "        \"Improvement 2\", \n"
  ++ strLit "        \"Improvement 3\",\n"
  ++ strLit "        \"Improvement 4\",\n"
  ++ strLit "        \"Improvement 5\"\n"
  ++ strLit "    ],\n"
  ++ strLit "    \"ats_optimization_tips\": [\n"
  ++ strLit "        \"Tip 1\",\n"
  ++ strLit "        \"Tip 2\",\n"
  ++ strLit "        \"Tip 3\"\n"
  ++ strLit "    ]\n"
  ++ strLit "\x7d"

def covSys : PyStr :=
  strLit "You are a professional cover letter writer specializing in tech roles.\n"
  ++ strLit "            Write compelling, personalized cover letters that get interviews."

def covUserA : PyStr :=
  strLit "Write a professional cover letter based on:\n"
  ++ strLit "\n"
  ++ strLit "JOB DESCRIPTION:\n"

def covUserB : PyStr :=
  strLit "\n"
  ++ strLit "\n"
  ++ strLit "RESUME CONTENT:\n"

def covUserC : PyStr :=
  strLit "\n"
  ++ strLit "\n"
  ++ strLit "Format:\n"
  ++ strLit "1. Professional header with date and contact info\n"
  ++ strLit "2. Appropriate salutation\n"
  ++ strLit "3. Strong opening paragraph showing enthusiasm\n"
  ++ strLit "4. 2-3 body paragraphs matching skills to job requirements\n"
  ++ strLit "5. Specific examples from resume\n"
  ++ strLit "6. Closing paragraph expressing interest\n"
  ++ strLit "7. Professional sign-off\n"
  ++ strLit "\n"
  ++ strLit "Make it:\n"
  ++ strLit "- Specific to this job\n"
  ++ strLit "- Confident but not arrogant\n"
  ++ strLit "- 250-350 words\n"
  ++ strLit "- Professional tone"

/-- A system and user instruction pair. -/
structure PromptPair where
  system : PyStr
  user : PyStr

/-- Embedding of the analysis_prompts dictionary of analyze_with_ai: the
prompt pair rendered for a given analysis type, job description and resume
text.  The slice bounds are those of the source: job_desc[:2000] and
resume_text[:2000] for detailed, job_desc[:1000] and resume_text[:1000]
for ats_score, the whole job_desc and resume_text[:1500] for
cover_letter.  An unknown analysis type corresponds to the KeyError path
and yields none. -/
def analysis_prompts (job_desc resume_text : PyStr) (analysis_type : PyStr) :
    Option PromptPair :=
  if analysis_type = strLit "detailed" then
    some ⟨detSys,
      detUserA ++ job_desc.take 2000 ++ detUserB ++ resume_text.take 2000 ++ detUserC⟩
  else if analysis_type = strLit "ats_score" then
    some ⟨atsSys,
      atsUserA ++ job_desc.take 1000 ++ atsUserB ++ resume_text.take 1000 ++ atsUserC⟩
  else if analysis_type = strLit "cover_letter" then
    some ⟨covSys,
      covUserA ++ job_desc ++ covUserB ++ resume_text.take 1500 ++ covUserC⟩
  else none

-- ============ JSON values (model of Python json) ============

/-- JSON values as handled by json.loads.  Numbers are modelled as exact
rationals (Python parses them to int or float; none of the claims depends
on binary floating point rounding). -/
inductive Json where
  | null
  | bool (b : Bool)
  | num (q : ℚ)
  | str (s : PyStr)
  | arr (elems : List Json)
  | obj (fields : List (PyStr × Json))

/-- Association lookup in the field list of a JSON object. -/
def lookupField : List (PyStr × Json) → PyStr → Option Json
  | [], _ => none
  | (k, v) :: t, key => if k = key then some v else lookupField t key

/-- Python dict.get on a parsed JSON object (none when the receiver is not
an object or the key is absent). -/
def getField : Json → PyStr → Option Json
  | Json.obj fs, key => lookupField fs key
  | _, _ => none

-- ============ json.loads: a recursive descent parser ============

/-- JSON whitespace: space, tab, line feed, carriage return. -/
def isJsonWs (c : Char) : Bool :=
  c = ' ' || c = '\t' || c = '\n' || c = '\r'

/-- Drop leading JSON whitespace. -/
def skipWs : PyStr → PyStr
  | [] => []
  | c :: t => if isJsonWs c then skipWs t else c :: t

/-- Resolution of a short escape sequence inside a JSON string literal. -/
def unescChar (c : Char) : Option Char :=
  if c = '"' then some '"'
  else if c = '\\' then some '\\'
  else if c = '/' then some '/'
  else if c = 'n' then some '\n'
  else if c = 't' then some '\t'
  else if c = 'r' then some '\r'
  else if c = 'b' then some '\x08'
  else if c = 'f' then some '\x0c'
  else none

/-- Value of one hexadecimal digit. -/
def hexVal (c : Char) : Option Nat :=
  if '0' ≤ c ∧ c ≤ '9' then some (c.toNat - 48)
  else if 'a' ≤ c ∧ c ≤ 'f' then some (c.toNat - 87)
  else if 'A' ≤ c ∧ c ≤ 'F' then some (c.toNat - 55)
  else none

/-- Body of a JSON string literal, after the opening quote: collect
characters (resolving backslash escapes) until the closing quote.  The
first component of the accumulator is kept reversed. -/
def parseStrAux (acc : PyStr) : PyStr → Option (PyStr × PyStr)
  | [] => none
  | c :: t =>
    if c = '"' then some (acc.reverse, t)
    else if c = '\\' then
      match t with
      | [] => none
      | e :: t2 =>
        if e = 'u' then
          match t2 with
          | h1 :: h2 :: h3 :: h4 :: t3 =>
            match hexVal h1, hexVal h2, hexVal h3, hexVal h4 with
            | some a, some b, some c4, some d =>
              parseStrAux (Char.ofNat (((a * 16 + b) * 16 + c4) * 16 + d) :: acc) t3
            | _, _, _, _ => none
          | _ => none
        else
          match unescChar e with
          | some d => parseStrAux (d :: acc) t2
          | none => none
    else parseStrAux (c :: acc) t

/-- Consume a maximal run of decimal digits; returns the accumulated
value, the number of digits consumed, and the rest. -/
def parseDigitsCnt : Nat → Nat → PyStr → Nat × Nat × PyStr
  | acc, cnt, [] => (acc, cnt, [])
  | acc, cnt, c :: t =>
    if c.isDigit then parseDigitsCnt (10 * acc + (c.toNat - 48)) (cnt + 1) t
    else (acc, cnt, c :: t)

/-- Exponent digits after an optional sign; fails when no digit follows,
in which case the exponent marker is not consumed by the caller. -/
def expDigits (u : PyStr) (neg : Bool) : Option (Bool × Nat × PyStr) :=
  match u with
  | d :: _ =>
    if d.isDigit then
      let p := parseDigitsCnt 0 0 u
      some (neg, p.1, p.2.2)
    else none
  | [] => none

/-- The tail of a JSON exponent: optional sign, then digits. -/
def expTail (s : PyStr) : Option (Bool × Nat × PyStr) :=
  match s with
  | '+' :: u => expDigits u false
  | '-' :: u => expDigits u true
  | u => expDigits u false

/-- Optional fraction part of a JSON number (the dot is consumed only when
a digit follows it). -/
def parseFrac (q : ℚ) (s : PyStr) : ℚ × PyStr :=
  match s with
  | '.' :: t =>
    match t with
    | d :: _ =>
      if d.isDigit then
        let p := parseDigitsCnt 0 0 t
        (q + (p.1 : ℚ) / (10 : ℚ) ^ p.2.1, p.2.2)
      else (q, '.' :: t)
    | [] => (q, ['.'])
  | s => (q, s)

/-- Optional exponent part of a JSON number. -/
def parseExp (q : ℚ) (s : PyStr) : ℚ × PyStr :=
  match s with
  | e :: t =>
    if e = 'e' || e = 'E' then
      match expTail t with
      | some (neg, n, r) =>
        (if neg then q / (10 : ℚ) ^ n else q * (10 : ℚ) ^ n, r)
      | none => (q, e :: t)
    else (q, e :: t)
  | [] => (q, [])

/-- Magnitude of a JSON number: integer part, optional fraction, optional
exponent. -/
def parseNumMag (s : PyStr) : Option (ℚ × PyStr) :=
  match s with
  | c :: _ =>
    if c.isDigit then
      let p := parseDigitsCnt 0 0 s
      let f := parseFrac (p.1 : ℚ) p.2.2
      let e := parseExp f.1 f.2
      some (e.1, e.2)
    else none
  | [] => none

/-- A JSON number with optional leading minus sign. -/
def parseNumber (s : PyStr) : Option (ℚ × PyStr) :=
  match s with
  | '-' :: t => (parseNumMag t).map (fun p => (-p.1, p.2))
  | t => parseNumMag t

/-- Parser state: a value is expected, or the members of an object are
being collected, or the elements of an array are being collected. -/
inductive PMode where
  | val
  | members (acc : List (PyStr × Json))
  | elems (acc : List Json)

/-- Fuel driven recursive descent parser for JSON, modelling json.loads.
Each recursive step spends one unit of fuel; json_loads supplies one more
unit than the input length, which always suffices because every spent unit
accompanies at least one consumed character. -/
def parseF : Nat → PMode → PyStr → Option (Json × PyStr)
  | 0, _, _ => none
  | k + 1, PMode.val, s =>
    match skipWs s with
    | [] => none
    | c :: t =>
      if c = '"' then
        match parseStrAux [] t with
        | some (cs, r) => some (Json.str cs, r)
        | none => none
      else if c = lbrace then
        match skipWs t with
        | [] => none
        | c2 :: t2 =>
          if c2 = rbrace then some (Json.obj [], t2)
          else parseF k (PMode.members []) (c2 :: t2)
      else if c = '[' then
        match skipWs t with
        | [] => none
        | c2 :: t2 =>
          if c2 = ']' then some (Json.arr [], t2)
          else parseF k (PMode.elems []) (c2 :: t2)
      else if c = 't' then
        match t with
        | 'r' :: 'u' :: 'e' :: r => some (Json.bool true, r)
        | _ => none
      else if c = 'f' then
        match t with
        | 'a' :: 'l' :: 's' :: 'e' :: r => some (Json.bool false, r)
        | _ => none
      else if c = 'n' then
        match t with
        | 'u' :: 'l' :: 'l' :: r => some (Json.null, r)
        | _ => none
      else if c = '-' || c.isDigit then
        match parseNumber (c :: t) with
        | some (q, r) => some (Json.num q, r)
        | none => none
      else none
  | k + 1, PMode.members acc, s =>
    match skipWs s with
    | [] => none
    | c :: t =>
      if c = '"' then
        match parseStrAux [] t with
        | none => none
        | some (key, r1) =>
          match skipWs r1 with
          | [] => none
          | c2 :: t2 =>
            if c2 = ':' then
              match parseF k PMode.val t2 with
              | none => none
              | some (v, r2) =>
                match skipWs r2 with
                | [] => none
                | c3 :: t3 =>
                  if c3 = ',' then parseF k (PMode.members (acc ++ [(key, v)])) t3
                  else if c3 = rbrace then some (Json.obj (acc ++ [(key, v)]), t3)
                  else none
            else none
      else none
  | k + 1, PMode.elems acc, s =>
    match parseF k PMode.val s with
    | none => none
    | some (v, r) =>
      match skipWs r with
      | [] => none
      | c :: t =>
        if c = ',' then parseF k (PMode.elems (acc ++ [v])) t
        else if c = ']' then some (Json.arr (acc ++ [v]), t)
        else none

/-- Model of json.loads: parse one JSON value and require that only
whitespace remains (json.loads raises on trailing data, which this model
renders as none). -/
def json_loads (s : PyStr) : Option Json :=
  match parseF (s.length + 1) PMode.val s with
  | some (j, rest) => if skipWs rest = [] then some j else none
  | none => none

-- ============ The regex span and the response interpreter ============

/-- Model of re.search with pattern lbrace .* rbrace under DOTALL, as used
at app.py line 396: the leftmost match starts at the first opening brace
and the greedy quantifier extends it to the last closing brace of the
whole text; there is no match when no closing brace occurs at or after the
first opening brace. -/
def findSpan (s : PyStr) : Option PyStr :=
  let t := s.dropWhile (fun c => c ≠ lbrace)
  let u := (t.reverse.dropWhile (fun c => c ≠ rbrace)).reverse
  if u.isEmpty then none else some u

/-- The payload returned by analyze_with_ai after a successful completion
call: either the raw model text or a parsed JSON object. -/
inductive Payload where
  | text (s : PyStr)
  | score (j : Json)

/-- Embedding of the response handling of analyze_with_ai (lines 389 to
405): in ats_score mode the regex span is located and parsed, a parse
success returns the parsed object, and a missing span or a parse failure
(the except branch that also emits a warning) returns the raw text; the
other modes return the raw text unchanged. -/
def interpretResponse (analysis_type : PyStr) (result : PyStr) : Payload :=
  if analysis_type = strLit "ats_score" then
    match findSpan result with
    | some span =>
      match json_loads span with
      | some j => Payload.score j
      | none => Payload.text result
    | none => Payload.text result
  else Payload.text result

-- ============ StructuredScore (spec section 3) ============

/-- The breakdown sub-scores of a StructuredScore. -/
structure Breakdown where
  keyword_match : Nat
  experience_match : Nat
  skills_match : Nat
  education_match : Nat
  formatting : Nat
  readability : Nat

/-- The prediction block of a StructuredScore. -/
structure Prediction where
  pass_ats : Bool
  interview_probability : PyStr
  shortlist_time : PyStr

/-- The keyword lists of a StructuredScore. -/
structure ScoreKeywords where
  matched : List PyStr
  missing : List PyStr
  suggested : List PyStr

/-- A well formed structured score, following the shape mandated by the
ats_score prompt template. -/
structure StructuredScore where
  overall_score : Nat
  breakdown : Breakdown
  prediction : Prediction
  keywords : ScoreKeywords
  improvements : List PyStr
  ats_optimization_tips : List PyStr

/-- The JSON object denoted by a breakdown. -/
def Breakdown.toJson (b : Breakdown) : Json :=
  Json.obj
    [ (strLit "keyword_match", Json.num (b.keyword_match : ℚ)),
      (strLit "experience_match", Json.num (b.experience_match : ℚ)),
      (strLit "skills_match", Json.num (b.skills_match : ℚ)),
      (strLit "education_match", Json.num (b.education_match : ℚ)),
      (strLit "formatting", Json.num (b.formatting : ℚ)),
      (strLit "readability", Json.num (b.readability : ℚ)) ]

/-- The JSON object denoted by a prediction. -/
def Prediction.toJson (p : Prediction) : Json :=
  Json.obj
    [ (strLit "pass_ats", Json.bool p.pass_ats),
      (strLit "interview_probability", Json.str p.interview_probability),
      (strLit "shortlist_time", Json.str p.shortlist_time) ]

/-- The JSON object denoted by the keyword lists. -/
def ScoreKeywords.toJson (k : ScoreKeywords) : Json :=
  Json.obj
    [ (strLit "matched", Json.arr (k.matched.map Json.str)),
      (strLit "missing", Json.arr (k.missing.map Json.str)),
      (strLit "suggested", Json.arr (k.suggested.map Json.str)) ]

/-- The JSON object denoted by a structured score: the dict that
json.loads yields on a faithful serialization of it. -/
def StructuredScore.toJson (S : StructuredScore) : Json :=
  Json.obj
    [ (strLit "overall_score", Json.num (S.overall_score : ℚ)),
      (strLit "breakdown", S.breakdown.toJson),
      (strLit "prediction", S.prediction.toJson),
      (strLit "keywords", S.keywords.toJson),
      (strLit "improvements", Json.arr (S.improvements.map Json.str)),
      (strLit "ats_optimization_tips", Json.arr (S.ats_optimization_tips.map Json.str)) ]

-- ============ JSON serialization of a StructuredScore ============

/-- Escape of one character inside a JSON string literal (quote and
backslash take a backslash escape; printable ASCII passes through). -/
def escChar (c : Char) : PyStr :=
  if c = '"' then ['\\', '"'] else if c = '\\' then ['\\', '\\'] else [c]

/-- Escape of a whole string body. -/
def escChars : PyStr → PyStr
  | [] => []
  | c :: t => escChar c ++ escChars t

/-- A serialized JSON string literal. -/
def serStr (s : PyStr) : PyStr := '"' :: (escChars s ++ ['"'])

/-- Serialized decimal of a natural number. -/
def serNat (n : Nat) : PyStr := natDigits n

/-- Serialized JSON boolean. -/
def serBool : Bool → PyStr
  | true => strLit "true"
  | false => strLit "false"

/-- The tail of a serialized array of strings after its first element:
comma separated further elements, then the closing bracket. -/
def serElemsTail : List PyStr → PyStr
  | [] => [']']
  | x :: xs => ',' :: (serStr x ++ serElemsTail xs)

/-- A serialized JSON array of strings. -/
def serArr (l : List PyStr) : PyStr :=
  match l with
  | [] => strLit "[]"
  | x :: xs => '[' :: (serStr x ++ serElemsTail xs)

/-- One serialized object member (key, colon, value) followed by the given
tail, which is either a comma starting the next member or the closing
brace. -/
def serMember (key v tail : PyStr) : PyStr := serStr key ++ (':' :: (v ++ tail))

/-- Serialized breakdown object. -/
def serBreakdown (b : Breakdown) : PyStr :=
  lbrace :: serMember (strLit "keyword_match") (serNat b.keyword_match)
    (',' :: serMember (strLit "experience_match") (serNat b.experience_match)
    (',' :: serMember (strLit "skills_match") (serNat b.skills_match)
    (',' :: serMember (strLit "education_match") (serNat b.education_match)
    (',' :: serMember (strLit "formatting") (serNat b.formatting)
    (',' :: serMember (strLit "readability") (serNat b.readability)
    [rbrace])))))

/-- Serialized prediction object. -/
def serPrediction (p : Prediction) : PyStr :=
  lbrace :: serMember (strLit "pass_ats") (serBool p.pass_ats)
    (',' :: serMember (strLit "interview_probability") (serStr p.interview_probability)
    (',' :: serMember (strLit "shortlist_time") (serStr p.shortlist_time)
    [rbrace]))

/-- Serialized keywords object. -/
def serKeywords (k : ScoreKeywords) : PyStr :=
  lbrace :: serMember (strLit "matched") (serArr k.matched)
    (',' :: serMember (strLit "missing") (serArr k.missing)
    (',' :: serMember (strLit "suggested") (serArr k.suggested)
    [rbrace]))

/-- Compact JSON serialization of a structured score, in the field order
mandated by the ats_score prompt template. -/
def serializeScore (S : StructuredScore) : PyStr :=
  lbrace :: serMember (strLit "overall_score") (serNat S.overall_score)
    (',' :: serMember (strLit "breakdown") (serBreakdown S.breakdown)
    (',' :: serMember (strLit "prediction") (serPrediction S.prediction)
    (',' :: serMember (strLit "keywords") (serKeywords S.keywords)
    (',' :: serMember (strLit "improvements") (serArr S.improvements)
    (',' :: serMember (strLit "ats_optimization_tips") (serArr S.ats_optimization_tips)
    [rbrace])))))

/-- Strings made of printable ASCII characters.  Restricting the string
fields of a well formed score to this alphabet keeps the model serializer
in exact agreement with the JSON produced and consumed by the Python json
library (no \u escapes, no raw control characters). -/
def simpleStr (s : PyStr) : Prop := ∀ c ∈ s, 32 ≤ c.toNat ∧ c.toNat ≤ 126

/-- Well formed structured score: every score field lies in 0 to 100 and
every string field is printable ASCII. -/
def wellFormed (S : StructuredScore) : Prop :=
  S.overall_score ≤ 100 ∧
  S.breakdown.keyword_match ≤ 100 ∧
  S.breakdown.experience_match ≤ 100 ∧
  S.breakdown.skills_match ≤ 100 ∧
  S.breakdown.education_match ≤ 100 ∧
  S.breakdown.formatting ≤ 100 ∧
  S.breakdown.readability ≤ 100 ∧
  simpleStr S.prediction.interview_probability ∧
  simpleStr S.prediction.shortlist_time ∧
  (∀ s ∈ S.keywords.matched, simpleStr s) ∧
  (∀ s ∈ S.keywords.missing, simpleStr s) ∧
  (∀ s ∈ S.keywords.suggested, simpleStr s) ∧
  (∀ s ∈ S.improvements, simpleStr s) ∧
  (∀ s ∈ S.ats_optimization_tips, simpleStr s)

-- ============ History statistics (app.py lines 1118 to 1167) ============

/-- The fields of one analysis_history entry that the statistics code
reads: the analysis type and the stored result (raw text or parsed
dict). -/
structure AnalysisData where
  atype : PyStr
  result : Payload

/-- The scores list built in the Visualize tab: for each history entry of
type ats_score whose result is a dict, the value of
result.get(overall_score, 0). -/
def historyScores (h : List AnalysisData) : List Json :=
  h.filterMap (fun a =>
    if a.atype = strLit "ats_score" then
      match a.result with
      | Payload.score j => some ((getField j (strLit "overall_score")).getD (Json.num 0))
      | _ => none
    else none)

/-- Python sum() over the scores list; none models the TypeError raised
when a non numeric value is present. -/
def sumScores : List Json → Option ℚ
  | [] => some 0
  | j :: t =>
    match j, sumScores t with
    | Json.num q, some s => some (q + s)
    | _, _ => none

/-- Python max() over the scores list. -/
def maxScores : List Json → Option ℚ
  | [] => none
  | [Json.num q] => some q
  | Json.num q :: t =>
    match maxScores t with
    | some m => some (max q m)
    | none => none
  | _ => none

/-- Python min() over the scores list. -/
def minScores : List Json → Option ℚ
  | [] => none
  | [Json.num q] => some q
  | Json.num q :: t =>
    match minScores t with
    | some m => some (min q m)
    | none => none
  | _ => none

/-- avg_score = sum(scores) / len(scores), computed only when the scores
list is nonempty (the enclosing if scores: branch). -/
def avgScore (h : List AnalysisData) : Option ℚ :=
  let scores := historyScores h
  if scores.isEmpty then none
  else (sumScores scores).map (fun s => s / (scores.length : ℚ))

/-- max_score of the Visualize tab. -/
def maxScore (h : List AnalysisData) : Option ℚ := maxScores (historyScores h)

/-- min_score of the Visualize tab. -/
def minScore (h : List AnalysisData) : Option ℚ := minScores (historyScores h)

/-- Value displayed by a one decimal format of a rational (the f-string
percent .1f display; at the inputs of the claims no rounding tie occurs,
so nearest rounding agrees with the Python float display). -/
def displayTenth (q : ℚ) : ℚ := ((round (10 * q) : ℤ) : ℚ) / 10

/-- Value of a rational rounded to two decimals. -/
def displayHundredth (q : ℚ) : ℚ := ((round (100 * q) : ℤ) : ℚ) / 100

-- ============ Concrete inputs used by the theorems ============

/-- An execution where staging the bytes into the temporary file works. -/
def okEnv : PyEnv := ⟨false, []⟩

/-- An execution where the staging write raises an OS error. -/
def failEnv : PyEnv := ⟨true, strLit "No space left on device"⟩

/-- An uploaded buffer on which all three libraries would raise. -/
def trivialFile : UploadedFile := ⟨strLit "resume.pdf", [], none, none, none⟩

/-- First page text of a small two page text resume. -/
def janeText : PyStr :=
  strLit "Jane Doe - Python Developer - 5 years of Django and Flask experience building scalable REST APIs"

/-- Second page text of the same resume. -/
def janePage2 : PyStr :=
  strLit "EDUCATION: BS Computer Science, University of Technology, class of 2018"

/-- A valid two page text PDF: each of the three libraries would open it
and extract the page texts, and both page counting strategies would
report two pages. -/
def janeFile : UploadedFile :=
  ⟨strLit "jane_resume.pdf", List.replicate 2048 37,
    some [⟨some janeText, []⟩, ⟨some janePage2, []⟩],
    some [janeText, janePage2],
    some [some janeText, some janePage2]⟩

/-- A concrete well formed structured score. -/
def sampleScore : StructuredScore :=
  ⟨72, ⟨80, 60, 75, 50, 90, 85⟩,
    ⟨true, strLit "High", strLit "Immediate"⟩,
    ⟨[strLit "python", strLit "django"], [strLit "docker"], [strLit "aws"]⟩,
    [strLit "Add more metrics"], [strLit "Use standard headings"]⟩

/-- A model response embedding sampleScore with trailing commentary that
contains a closing brace. -/
def c4SuffixRaw : PyStr := serializeScore sampleScore ++ strLit " Hope this helps :\x7d"

/-- A model response embedding sampleScore with leading commentary that
contains an opening brace. -/
def c4PrefixRaw : PyStr := strLit "\x7b oops " ++ serializeScore sampleScore

/-- A model response whose embedded JSON carries a score outside 0..100. -/
def c9Raw : PyStr := strLit "Sure! \x7b\"overall_score\": 150\x7d"

/-- A model response containing no brace delimited substring. -/
def c5Raw : PyStr := strLit "I could not produce a score for this resume."

/-- A history entry of type ats_score whose dict carries one overall
score. -/
def scoreEntry (q : ℚ) : AnalysisData :=
  ⟨strLit "ats_score", Payload.score (Json.obj [(strLit "overall_score", Json.num q)])⟩

/-- The history of the statistics scenario: ATSScore entries carrying the
scores 55, 70 and 90. -/
def h0 : List AnalysisData := [scoreEntry 55, scoreEntry 70, scoreEntry 90]

-- ============ Theorems ============

-- Helper facts about the extraction cascade under the module namespace
-- of app.py.

/-- The pdfplumber stage always contributes nothing: the name pdfplumber
is not bound at module level, so the stage raises NameError at once. -/
theorem method1_eq_nil (f : UploadedFile) : method1 f = [] := by
  have h : moduleDefined (strLit "pdfplumber") = false := by decide
  simp [method1, h]

/-- The fitz stage always contributes nothing. -/
theorem method2_eq_nil (f : UploadedFile) : method2 f = [] := by
  have h : moduleDefined (strLit "fitz") = false := by decide
  simp [method2, h]

/-- The PyPDF2 stage always contributes nothing. -/
theorem method3_eq_nil (f : UploadedFile) : method3 f = [] := by
  have h : moduleDefined (strLit "PyPDF2") = false := by decide
  simp [method3, h]

/-- The fitz page counting fallback always reports zero pages. -/
theorem fitzPageCount_eq_zero (f : UploadedFile) : fitzPageCount f = 0 := by
  have h : moduleDefined (strLit "fitz") = false := by decide
  simp [fitzPageCount, h]

/-- Shape of the extraction outcome on every run whose staging write
succeeds: the accumulated text stays empty throughout and the warning is
returned. -/
theorem extract_ok_shape (m : PyStr) (f : UploadedFile) :
    extract_text_from_pdf ⟨false, m⟩ f =
      ⟨warnMsg, true, true, true, true, [], []⟩ := by
  simp [extract_text_from_pdf, method1_eq_nil, method2_eq_nil, method3_eq_nil, stripPy]

/-- C2: for every input byte buffer and run time circumstance, the
accumulated text of the cascade is empty after every stage and the
function returns the warning string or an error string, never extracted
document text: each stage references a name (pdfplumber, fitz, PyPDF2)
that the module never imports, so every stage raises NameError and its
bare except swallows it. -/
theorem extraction_always_fails (env : PyEnv) (f : UploadedFile) :
    ((extract_text_from_pdf env f).textAfter1 = [] ∧
      (extract_text_from_pdf env f).textAfter2 = []) ∧
    ((extract_text_from_pdf env f).result = warnMsg ∨
      (extract_text_from_pdf env f).result =
        strLit "Error extracting PDF: " ++ env.errMsg) := by
  obtain ⟨w, m⟩ := env
  cases w
  · rw [extract_ok_shape m f]
    exact ⟨⟨rfl, rfl⟩, Or.inl rfl⟩
  · exact ⟨⟨rfl, rfl⟩, Or.inr rfl⟩

/-- C1 (code bug evidence): on a valid PDF whose extractable first page
text alone has at least 50 non whitespace characters, the code still
returns the scanned image warning, because every extraction stage raises
NameError on an unimported library name. -/
theorem extract_returns_warning_on_text_pdf :
    50 ≤ countNonWS janeText ∧
    (extract_text_from_pdf okEnv janeFile).result = warnMsg := by
  constructor
  · decide
  · rw [show okEnv = ⟨false, []⟩ from rfl, extract_ok_shape]

/-- C3: on every run whose staging write succeeds, each later stage of the
cascade is attempted exactly when the text accumulated so far has fewer
than 100 non whitespace characters.  Both sides are always true on this
code: the accumulated text is always empty (every stage raises NameError),
so the guard len(text.strip()) < 100 always passes and the non whitespace
count is always zero. -/
theorem cascade_guard_iff (m : PyStr) (f : UploadedFile) :
    ((extract_text_from_pdf ⟨false, m⟩ f).attempted2 = true ↔
      countNonWS (extract_text_from_pdf ⟨false, m⟩ f).textAfter1 < 100) ∧
    ((extract_text_from_pdf ⟨false, m⟩ f).attempted3 = true ↔
      countNonWS (extract_text_from_pdf ⟨false, m⟩ f).textAfter2 < 100) := by
  rw [extract_ok_shape m f]
  refine ⟨⟨fun _ => ?_, fun _ => rfl⟩, ⟨fun _ => ?_, fun _ => rfl⟩⟩ <;> decide

/-- C7 (code bug evidence): the file statistics never raise, the reported
size is the byte length divided by 1024 * 1024, but the page count is
always zero, even on a valid two page PDF that both counting strategies
would read as two pages: pdfplumber and fitz are unimported names, so both
strategies raise NameError. -/
theorem file_stats_pages_always_zero :
    (∀ f : UploadedFile,
      (get_file_stats f).pages = 0 ∧
      (get_file_stats f).size_mb = (f.content.length : ℚ) / (1024 * 1024) ∧
      (get_file_stats f).filename = f.name) ∧
    janeFile.plumber.map List.length = some 2 ∧
    janeFile.fitzPages.map List.length = some 2 ∧
    (get_file_stats janeFile).pages = 0 ∧
    0 < (get_file_stats janeFile).size_mb := by
  have h : moduleDefined (strLit "pdfplumber") = false := by decide
  refine ⟨fun f => ⟨?_, rfl, rfl⟩, by decide, by decide, ?_, ?_⟩
  · simp [get_file_stats, h, fitzPageCount_eq_zero]
  · simp [get_file_stats, h, fitzPageCount_eq_zero]
  · have hlen : janeFile.content.length = 2048 := by
      show (List.replicate 2048 37).length = 2048
      rw [List.length_replicate]
    have hmb : (get_file_stats janeFile).size_mb =
        (janeFile.content.length : ℚ) / (1024 * 1024) := rfl
    rw [hmb, hlen]
    norm_num

/-- C8 (code bug evidence): when the staging write raises after the
temporary file has been created, the outer except clause returns an error
string without deleting the temporary file; the deletion only happens on
runs where staging succeeds, because os.unlink is not protected by a
finally block. -/
theorem temp_file_leak_on_write_failure :
    ((extract_text_from_pdf failEnv trivialFile).tempCreated = true ∧
      (extract_text_from_pdf failEnv trivialFile).tempDeleted = false) ∧
    (∀ (m : PyStr) (f : UploadedFile),
      (extract_text_from_pdf ⟨false, m⟩ f).tempDeleted = true) := by
  refine ⟨⟨rfl, rfl⟩, fun m f => ?_⟩
  rw [extract_ok_shape m f]

/-- C6: prompt building is embedded as a pure function of mode, job
description and resume text, so identical inputs render identical pairs;
the rendered user prompt interpolates the job description and resume
truncated at 2000/2000 characters in detailed mode and 1000/1000 in
ats_score mode, and the full job description with 1500 characters of
resume in cover_letter mode, which also makes the rendered pair invariant
under truncating the inputs at exactly those bounds. -/
theorem prompt_truncation (jd r : PyStr) :
    (analysis_prompts jd r (strLit "detailed") =
        some ⟨detSys, detUserA ++ jd.take 2000 ++ detUserB ++ r.take 2000 ++ detUserC⟩ ∧
      analysis_prompts jd r (strLit "ats_score") =
        some ⟨atsSys, atsUserA ++ jd.take 1000 ++ atsUserB ++ r.take 1000 ++ atsUserC⟩ ∧
      analysis_prompts jd r (strLit "cover_letter") =
        some ⟨covSys, covUserA ++ jd ++ covUserB ++ r.take 1500 ++ covUserC⟩) ∧
    (analysis_prompts jd r (strLit "detailed") =
        analysis_prompts (jd.take 2000) (r.take 2000) (strLit "detailed") ∧
      analysis_prompts jd r (strLit "ats_score") =
        analysis_prompts (jd.take 1000) (r.take 1000) (strLit "ats_score") ∧
      analysis_prompts jd r (strLit "cover_letter") =
        analysis_prompts jd (r.take 1500) (strLit "cover_letter")) := by
  have h1 : strLit "ats_score" ≠ strLit "detailed" := by decide
  have h2 : strLit "cover_letter" ≠ strLit "detailed" := by decide
  have h3 : strLit "cover_letter" ≠ strLit "ats_score" := by decide
  refine ⟨⟨rfl, rfl, rfl⟩, ?_, ?_, ?_⟩ <;>
    simp [analysis_prompts, List.take_take, h1, h2, h3]

/-- C10 counterexample: on the history with scores 55, 70 and 90 the
computed average is 215 / 3 = 71.666..., which is not the number 71.67
stated by the claim (71.67 is only its two decimal rounding). -/
theorem history_avg_ne_71_67 :
    avgScore h0 = some ((215 : ℚ) / 3) ∧ avgScore h0 ≠ some ((7167 : ℚ) / 100) := by
  have hs : historyScores h0 = [Json.num 55, Json.num 70, Json.num 90] := rfl
  have havg : avgScore h0 = some ((215 : ℚ) / 3) := by
    have hsum : sumScores [Json.num 55, Json.num 70, Json.num 90] =
        some (55 + (70 + (90 + (0 : ℚ)))) := rfl
    unfold avgScore
    rw [hs]
    simp [hsum]
    norm_num
  refine ⟨havg, ?_⟩
  rw [havg]
  simp only [ne_eq, Option.some.injEq]
  norm_num

/-- C10 amended: on the history with scores 55, 70 and 90 the computed
average is exactly 215 / 3, whose two decimal rounding is 71.67 and whose
one decimal display is 71.7; the maximum is 90 and the minimum is 55. -/
theorem history_stats_scenario :
    avgScore h0 = some ((215 : ℚ) / 3) ∧
    displayHundredth ((215 : ℚ) / 3) = (7167 : ℚ) / 100 ∧
    displayTenth ((215 : ℚ) / 3) = (717 : ℚ) / 10 ∧
    maxScore h0 = some 90 ∧
    minScore h0 = some 55 := by
  have hs : historyScores h0 = [Json.num 55, Json.num 70, Json.num 90] := rfl
  have havg : avgScore h0 = some ((215 : ℚ) / 3) := by
    have hsum : sumScores [Json.num 55, Json.num 70, Json.num 90] =
        some (55 + (70 + (90 + (0 : ℚ)))) := rfl
    unfold avgScore
    rw [hs]
    simp [hsum]
    norm_num
  have hmax : maxScores [Json.num 55, Json.num 70, Json.num 90] =
      some (max 55 (max 70 90)) := rfl
  have hmin : minScores [Json.num 55, Json.num 70, Json.num 90] =
      some (min 55 (min 70 90)) := rfl
  refine ⟨havg, ?_, ?_, ?_, ?_⟩
  · unfold displayHundredth
    rw [show (100 : ℚ) * (215 / 3) = 21500 / 3 by norm_num, round_eq]
    norm_num
  · unfold displayTenth
    rw [show (10 : ℚ) * (215 / 3) = 2150 / 3 by norm_num, round_eq]
    norm_num
  · unfold maxScore
    rw [hs, hmax]
    norm_num
  · unfold minScore
    rw [hs, hmin]
    norm_num

-- ============ Digit rendering lemmas ============

/-- The fuel of natDigitsAux is irrelevant once it exceeds the number. -/
theorem natDigitsAux_congr :
    ∀ (n f1 f2 : Nat), n < f1 → n < f2 → natDigitsAux f1 n = natDigitsAux f2 n := by
  intro n
  induction n using Nat.strong_induction_on with
  | _ n ih =>
    intro f1 f2 h1 h2
    obtain ⟨g1, rfl⟩ : ∃ g, f1 = g + 1 := ⟨f1 - 1, by omega⟩
    obtain ⟨g2, rfl⟩ : ∃ g, f2 = g + 1 := ⟨f2 - 1, by omega⟩
    by_cases hn : n < 10
    · simp [natDigitsAux, hn]
    · have hda : n / 10 < n := Nat.div_lt_self (by omega) (by omega)
      simp only [natDigitsAux, if_neg hn]
      rw [ih (n / 10) hda g1 g2 (by omega) (by omega)]

/-- Unfolding equation of natDigits. -/
theorem natDigits_unfold (n : Nat) :
    natDigits n =
      if n < 10 then [Char.ofNat (48 + n)]
      else natDigits (n / 10) ++ [Char.ofNat (48 + n % 10)] := by
  have h1 : natDigitsAux (n + 1) n =
      if n < 10 then [Char.ofNat (48 + n)]
      else natDigitsAux n (n / 10) ++ [Char.ofNat (48 + n % 10)] := rfl
  by_cases hn : n < 10
  · simp only [natDigits, h1, if_pos hn]
  · have hda : n / 10 < n := Nat.div_lt_self (by omega) (by omega)
    simp only [natDigits, h1, if_neg hn]
    rw [natDigitsAux_congr (n / 10) n (n / 10 + 1) (by omega) (by omega)]

/-- natDigits never produces the empty list. -/
theorem natDigits_ne_nil (n : Nat) : natDigits n ≠ [] := by
  rw [natDigits_unfold]
  by_cases hn : n < 10 <;> simp [hn]

/-- Every character produced by natDigits is a decimal digit character. -/
theorem natDigits_mem (n : Nat) :
    ∀ c ∈ natDigits n, ∃ m, m < 10 ∧ c = Char.ofNat (48 + m) := by
  induction n using Nat.strong_induction_on with
  | _ n ih =>
    intro c hc
    rw [natDigits_unfold] at hc
    by_cases hn : n < 10
    · rw [if_pos hn] at hc
      simp only [List.mem_singleton] at hc
      exact ⟨n, hn, hc⟩
    · rw [if_neg hn] at hc
      rcases List.mem_append.mp hc with h | h
      · exact ih (n / 10) (Nat.div_lt_self (by omega) (by omega)) c h
      · simp only [List.mem_singleton] at h
        exact ⟨n % 10, Nat.mod_lt _ (by omega), h⟩

/-- The head of natDigits, exposed as a cons cell. -/
theorem natDigits_head (n : Nat) :
    ∃ d t, natDigits n = d :: t ∧ ∃ m, m < 10 ∧ d = Char.ofNat (48 + m) := by
  obtain ⟨d, t, h⟩ := List.exists_cons_of_ne_nil (natDigits_ne_nil n)
  refine ⟨d, t, h, ?_⟩
  exact natDigits_mem n d (by rw [h]; exact List.mem_cons_self d t)

/-- Character class facts about a decimal digit character. -/
theorem digitChar_facts (m : Nat) (hm : m < 10) :
    (Char.ofNat (48 + m)).isDigit = true ∧
    (Char.ofNat (48 + m)).toNat - 48 = m ∧
    isJsonWs (Char.ofNat (48 + m)) = false ∧
    Char.ofNat (48 + m) ≠ '"' ∧
    Char.ofNat (48 + m) ≠ '\\' ∧
    Char.ofNat (48 + m) ≠ lbrace ∧
    Char.ofNat (48 + m) ≠ '[' ∧
    Char.ofNat (48 + m) ≠ 't' ∧
    Char.ofNat (48 + m) ≠ 'f' ∧
    Char.ofNat (48 + m) ≠ 'n' ∧
    Char.ofNat (48 + m) ≠ '-' ∧
    Char.ofNat (48 + m) ≠ '.' ∧
    Char.ofNat (48 + m) ≠ 'e' ∧
    Char.ofNat (48 + m) ≠ 'E' ∧
    Char.ofNat (48 + m) ≠ ',' ∧
    Char.ofNat (48 + m) ≠ ':' := by
  interval_cases m <;> decide

-- ============ Number parsing completeness ============

/-- Running the digit scanner over a rendered number accumulates exactly
that number and continues on the rest. -/
theorem parseDigitsCnt_natDigits :
    ∀ (n acc cnt : Nat) (rest : PyStr),
      parseDigitsCnt acc cnt (natDigits n ++ rest) =
        parseDigitsCnt (acc * 10 ^ (natDigits n).length + n)
          (cnt + (natDigits n).length) rest := by
  intro n
  induction n using Nat.strong_induction_on with
  | _ n ih =>
    intro acc cnt rest
    by_cases hn : n < 10
    · rw [natDigits_unfold, if_pos hn]
      obtain ⟨hdig, hval, -⟩ := digitChar_facts n hn
      simp only [List.singleton_append, parseDigitsCnt, hdig, if_pos, List.length_singleton]
      rw [hval]
      ring_nf
      simp
    · have hda : n / 10 < n := Nat.div_lt_self (by omega) (by omega)
      have hm : n % 10 < 10 := Nat.mod_lt _ (by omega)
      obtain ⟨hdig, hval, -⟩ := digitChar_facts (n % 10) hm
      rw [natDigits_unfold n, if_neg hn]
      rw [List.append_assoc, List.singleton_append]
      rw [ih (n / 10) hda]
      simp only [parseDigitsCnt, hdig, if_pos]
      rw [hval]
      simp only [List.length_append, List.length_singleton]
      have hds : 10 * (acc * 10 ^ (natDigits (n / 10)).length + n / 10) + n % 10 =
          acc * 10 ^ ((natDigits (n / 10)).length + 1) + (10 * (n / 10) + n % 10) := by
        ring
      rw [hds, Nat.div_add_mod, Nat.add_assoc]

/-- The digit scanner stops at once on a non digit head. -/
theorem parseDigitsCnt_stop (acc cnt : Nat) (rest : PyStr)
    (h : ∀ c, rest.head? = some c → c.isDigit = false) :
    parseDigitsCnt acc cnt rest = (acc, cnt, rest) := by
  cases rest with
  | nil => rfl
  | cons c t =>
    have hc := h c rfl
    simp [parseDigitsCnt, hc]

/-- A number whose head is not a minus sign parses through parseNumMag. -/
theorem parseNumber_not_neg (c : Char) (t : PyStr) (hc : c ≠ '-') :
    parseNumber (c :: t) = parseNumMag (c :: t) := by
  unfold parseNumber
  split
  · rename_i t' heq
    injection heq with h1 h2
    exact absurd h1 hc
  · rfl

/-- The fraction scanner does not fire when the head is not a dot. -/
theorem parseFrac_stop (q : ℚ) (s : PyStr)
    (hs : ∀ c, s.head? = some c → c ≠ '.') :
    parseFrac q s = (q, s) := by
  unfold parseFrac
  split
  · exact absurd rfl (hs '.' rfl)
  · rfl

/-- The exponent scanner does not fire when the head is not an exponent
marker. -/
theorem parseExp_stop (q : ℚ) (s : PyStr)
    (hs : ∀ c, s.head? = some c → c ≠ 'e' ∧ c ≠ 'E') :
    parseExp q s = (q, s) := by
  cases s with
  | nil => rfl
  | cons c t =>
    obtain ⟨h1, h2⟩ := hs c rfl
    have hb : (c = 'e' || c = 'E') = false := by
      simp [h1, h2]
    simp [parseExp, hb]

/-- Completeness of the number parser on a rendered natural number,
provided the following character is not a digit, a dot or an exponent
marker. -/
theorem parseNumber_natDigits (n : Nat) (rest : PyStr)
    (hrest : ∀ c, rest.head? = some c →
      c.isDigit = false ∧ c ≠ '.' ∧ c ≠ 'e' ∧ c ≠ 'E') :
    parseNumber (natDigits n ++ rest) = some ((n : ℚ), rest) := by
  obtain ⟨d, t0, hnd, m, hm, hdm⟩ := natDigits_head n
  obtain ⟨hdig, -, -, -, -, -, -, -, -, -, hminus, -⟩ := digitChar_facts m hm
  have hd_digit : d.isDigit = true := by rw [hdm]; exact hdig
  have hd_minus : d ≠ '-' := by rw [hdm]; exact hminus
  have hshape : natDigits n ++ rest = d :: (t0 ++ rest) := by
    rw [hnd, List.cons_append]
  rw [hshape, parseNumber_not_neg d _ hd_minus]
  unfold parseNumMag
  simp only [hd_digit, if_pos]
  rw [← hshape, parseDigitsCnt_natDigits n 0 0 rest]
  rw [parseDigitsCnt_stop _ _ rest (fun c hc => (hrest c hc).1)]
  simp only []
  rw [parseFrac_stop _ rest (fun c hc => (hrest c hc).2.1)]
  rw [parseExp_stop _ rest (fun c hc => ⟨(hrest c hc).2.2.1, (hrest c hc).2.2.2⟩)]
  norm_num

-- ============ String parsing completeness ============

/-- Step equation: closing quote. -/
theorem parseStrAux_quote (acc rest : PyStr) :
    parseStrAux acc ('"' :: rest) = some (acc.reverse, rest) := by
  rw [parseStrAux.eq_def]
  simp

/-- Step equation: short escape sequence. -/
theorem parseStrAux_unesc (acc : PyStr) (e d : Char) (t2 : PyStr)
    (he : e ≠ 'u') (hd : unescChar e = some d) :
    parseStrAux acc ('\\' :: e :: t2) = parseStrAux (d :: acc) t2 := by
  rw [parseStrAux.eq_def]
  simp [he, hd]

/-- Step equation: ordinary character. -/
theorem parseStrAux_plain (acc : PyStr) (c : Char) (t : PyStr)
    (h1 : c ≠ '"') (h2 : c ≠ '\\') :
    parseStrAux acc (c :: t) = parseStrAux (c :: acc) t := by
  rw [parseStrAux.eq_def]
  simp [h1, h2]

/-- Completeness of the string body parser on an escaped string body
followed by the closing quote. -/
theorem parseStrAux_complete (s : PyStr) :
    ∀ (acc rest : PyStr),
      parseStrAux acc (escChars s ++ ('"' :: rest)) = some (acc.reverse ++ s, rest) := by
  induction s with
  | nil =>
    intro acc rest
    rw [show escChars [] = [] from rfl, List.nil_append, parseStrAux_quote]
    simp
  | cons c s ih =>
    intro acc rest
    by_cases hq : c = '"'
    · subst hq
      rw [show escChars ('"' :: s) = '\\' :: '"' :: escChars s from rfl,
        List.cons_append, List.cons_append,
        parseStrAux_unesc acc '"' '"' _ (by decide) (by decide), ih]
      simp
    · by_cases hb : c = '\\'
      · subst hb
        rw [show escChars ('\\' :: s) = '\\' :: '\\' :: escChars s from rfl,
          List.cons_append, List.cons_append,
          parseStrAux_unesc acc '\\' '\\' _ (by decide) (by decide), ih]
        simp
      · have he : escChars (c :: s) = c :: escChars s := by
          simp [escChars, escChar, hq, hb]
        rw [he, List.cons_append, parseStrAux_plain acc c _ hq hb, ih]
        simp

-- ============ Value parsing completeness ============

/-- skipWs does not consume a non whitespace head. -/
theorem skipWs_not_ws (c : Char) (t : PyStr) (h : isJsonWs c = false) :
    skipWs (c :: t) = c :: t := by
  simp [skipWs, h]

/-- Completeness of the value parser on a serialized string. -/
theorem pv_str (k : Nat) (s rest : PyStr) :
    parseF (k + 1) PMode.val (serStr s ++ rest) = some (Json.str s, rest) := by
  have hshape : serStr s ++ rest = '"' :: (escChars s ++ ('"' :: rest)) := by
    simp [serStr]
  rw [hshape]
  simp [parseF, skipWs, isJsonWs, parseStrAux_complete s [] rest]

/-- Completeness of the value parser on a serialized boolean. -/
theorem pv_bool (k : Nat) (b : Bool) (rest : PyStr) :
    parseF (k + 1) PMode.val (serBool b ++ rest) = some (Json.bool b, rest) := by
  cases b
  · have h : serBool false ++ rest = 'f' :: 'a' :: 'l' :: 's' :: 'e' :: rest := rfl
    rw [h]
    simp [parseF, skipWs, isJsonWs, lbrace, rbrace]
  · have h : serBool true ++ rest = 't' :: 'r' :: 'u' :: 'e' :: rest := rfl
    rw [h]
    simp [parseF, skipWs, isJsonWs, lbrace, rbrace]

/-- Character class facts needed to route a digit head through the value
parser dispatch. -/
theorem digit_head_facts (d : Char) (m : Nat) (hm : m < 10)
    (hdm : d = Char.ofNat (48 + m)) :
    d.isDigit = true ∧ isJsonWs d = false ∧ d ≠ '"' ∧ d ≠ lbrace ∧ d ≠ '[' ∧
    d ≠ 't' ∧ d ≠ 'f' ∧ d ≠ 'n' := by
  subst hdm
  obtain ⟨h1, -, h3, h4, -, h6, h7, h8, h9, h10, -⟩ := digitChar_facts m hm
  exact ⟨h1, h3, h4, h6, h7, h8, h9, h10⟩

/-- Completeness of the value parser on a rendered natural number. -/
theorem pv_nat (k n : Nat) (rest : PyStr)
    (hrest : ∀ c, rest.head? = some c →
      c.isDigit = false ∧ c ≠ '.' ∧ c ≠ 'e' ∧ c ≠ 'E') :
    parseF (k + 1) PMode.val (natDigits n ++ rest) = some (Json.num (n : ℚ), rest) := by
  obtain ⟨d, t0, hnd, m, hm, hdm⟩ := natDigits_head n
  obtain ⟨hdig, hws, hq, hlb, hbr, ht, hf, hn2⟩ := digit_head_facts d m hm hdm
  have e1 : parseF (k + 1) PMode.val (d :: (t0 ++ rest)) =
      match parseNumber (d :: (t0 ++ rest)) with
      | some (q, r) => some (Json.num q, r)
      | none => none := by
    simp [parseF, skipWs, hws, hq, hlb, hbr, ht, hf, hn2, hdig]
  rw [hnd, List.cons_append, e1, ← List.cons_append, ← hnd,
    parseNumber_natDigits n rest hrest]

/-- One layer unfolding of the element loop. -/
theorem pf_elems_step (k : Nat) (acc : List Json) (s : PyStr) :
    parseF (k + 1) (PMode.elems acc) s =
      match parseF k PMode.val s with
      | none => none
      | some (v, r) =>
        match skipWs r with
        | [] => none
        | c :: t =>
          if c = ',' then parseF k (PMode.elems (acc ++ [v])) t
          else if c = ']' then some (Json.arr (acc ++ [v]), t)
          else none := by
  simp only [parseF]

/-- One layer unfolding of the value parser on an opening brace. -/
theorem pfv_lbrace (k : Nat) (t : PyStr) :
    parseF (k + 1) PMode.val (lbrace :: t) =
      match skipWs t with
      | [] => none
      | c2 :: t2 =>
        if c2 = rbrace then some (Json.obj [], t2)
        else parseF k (PMode.members []) (c2 :: t2) := by
  simp only [parseF]
  rw [skipWs_not_ws lbrace t (by decide)]
  simp [lbrace]

/-- One layer unfolding of the value parser on an opening bracket. -/
theorem pfv_lbrack (k : Nat) (t : PyStr) :
    parseF (k + 1) PMode.val ('[' :: t) =
      match skipWs t with
      | [] => none
      | c2 :: t2 =>
        if c2 = ']' then some (Json.arr [], t2)
        else parseF k (PMode.elems []) (c2 :: t2) := by
  simp only [parseF]
  rw [skipWs_not_ws '[' t (by decide)]
  simp [lbrace]

/-- One layer unfolding of the member loop on a quoted key followed by a
colon. -/
theorem pfm_step (k : Nat) (acc : List (PyStr × Json)) (key Y : PyStr) :
    parseF (k + 1) (PMode.members acc) ('"' :: (escChars key ++ ('"' :: (':' :: Y)))) =
      match parseF k PMode.val Y with
      | none => none
      | some (v, r2) =>
        match skipWs r2 with
        | [] => none
        | c3 :: t3 =>
          if c3 = ',' then parseF k (PMode.members (acc ++ [(key, v)])) t3
          else if c3 = rbrace then some (Json.obj (acc ++ [(key, v)]), t3)
          else none := by
  simp only [parseF]
  rw [skipWs_not_ws '"' _ (by decide)]
  simp [parseStrAux_complete key [], skipWs, isJsonWs]

/-- Completeness of the element loop on the tail of a serialized string
array, starting after the opening bracket. -/
theorem pv_elemsTail (xs : List PyStr) :
    ∀ (k : Nat) (acc : List Json) (x : PyStr) (rest : PyStr),
      parseF (k + xs.length + 2) (PMode.elems acc)
          (serStr x ++ (serElemsTail xs ++ rest)) =
        some (Json.arr (acc ++ Json.str x :: xs.map Json.str), rest) := by
  induction xs with
  | nil =>
    intro k acc x rest
    rw [show serElemsTail [] = [']'] from rfl, List.singleton_append]
    rw [show k + ([] : List PyStr).length + 2 = (k + 1) + 1 by simp, pf_elems_step]
    rw [pv_str k x _]
    have hsk : skipWs (']' :: rest) = ']' :: rest := skipWs_not_ws ']' rest (by decide)
    simp [hsk]
  | cons y ys ih =>
    intro k acc x rest
    rw [show serElemsTail (y :: ys) = ',' :: (serStr y ++ serElemsTail ys) from rfl]
    rw [show k + (y :: ys).length + 2 = (k + ys.length + 2) + 1 by simp; omega]
    rw [pf_elems_step]
    have h1 : parseF (k + ys.length + 2) PMode.val
        (serStr x ++ (',' :: (serStr y ++ serElemsTail ys) ++ rest)) =
        some (Json.str x, ',' :: (serStr y ++ serElemsTail ys) ++ rest) := by
      rw [show k + ys.length + 2 = (k + ys.length + 1) + 1 by omega]
      exact pv_str _ x _
    rw [h1]
    have hsk : skipWs (',' :: (serStr y ++ (serElemsTail ys ++ rest))) =
        ',' :: (serStr y ++ (serElemsTail ys ++ rest)) :=
      skipWs_not_ws ',' _ (by decide)
    have h2 := ih k (acc ++ [Json.str x]) y rest
    simp only [List.append_assoc] at h2 ⊢
    simp [hsk, h2]

/-- Completeness of the value parser on a serialized string array. -/
theorem pv_arr (l : List PyStr) (k : Nat) (rest : PyStr) :
    parseF (k + l.length + 2) PMode.val (serArr l ++ rest) =
      some (Json.arr (l.map Json.str), rest) := by
  cases l with
  | nil =>
    rw [show serArr [] ++ rest = '[' :: (']' :: rest) from rfl]
    rw [show k + ([] : List PyStr).length + 2 = (k + 1) + 1 by simp]
    rw [pfv_lbrack]
    have hsk : skipWs (']' :: rest) = ']' :: rest := skipWs_not_ws ']' rest (by decide)
    simp [hsk]
  | cons x xs =>
    rw [show serArr (x :: xs) ++ rest = '[' :: (serStr x ++ (serElemsTail xs ++ rest)) by
      simp [serArr]]
    rw [show k + (x :: xs).length + 2 = (k + xs.length + 2) + 1 by simp; omega]
    rw [pfv_lbrack]
    have hshape : serStr x ++ (serElemsTail xs ++ rest) =
        '"' :: (escChars x ++ ('"' :: (serElemsTail xs ++ rest))) := by
      simp [serStr]
    rw [hshape]
    have hsk : skipWs ('"' :: (escChars x ++ ('"' :: (serElemsTail xs ++ rest)))) =
        '"' :: (escChars x ++ ('"' :: (serElemsTail xs ++ rest))) :=
      skipWs_not_ws '"' _ (by decide)
    rw [hsk]
    have h2 := pv_elemsTail xs k [] x rest
    rw [hshape] at h2
    simp only [List.nil_append] at h2
    simp [h2]

/-- A comma head satisfies the number stop condition. -/
theorem headStop_comma (t : PyStr) :
    ∀ c, (',' :: t).head? = some c →
      c.isDigit = false ∧ c ≠ '.' ∧ c ≠ 'e' ∧ c ≠ 'E' := by
  intro c hc
  simp only [List.head?_cons, Option.some.injEq] at hc
  subst hc
  decide

/-- A closing brace head satisfies the number stop condition. -/
theorem headStop_rbrace (t : PyStr) :
    ∀ c, (rbrace :: t).head? = some c →
      c.isDigit = false ∧ c ≠ '.' ∧ c ≠ 'e' ∧ c ≠ 'E' := by
  intro c hc
  simp only [List.head?_cons, Option.some.injEq] at hc
  subst hc
  decide

/-- Parsing one member whose value parse is known, followed by a comma,
continues the member loop on the rest. -/
theorem member_cons (k : Nat) (acc : List (PyStr × Json)) (key vs : PyStr)
    (v : Json) (rest : PyStr) (out : Option (Json × PyStr))
    (hval : parseF k PMode.val (vs ++ (',' :: rest)) = some (v, ',' :: rest))
    (hcont : parseF k (PMode.members (acc ++ [(key, v)])) rest = out) :
    parseF (k + 1) (PMode.members acc) (serMember key vs (',' :: rest)) = out := by
  rw [show serMember key vs (',' :: rest) =
      '"' :: (escChars key ++ ('"' :: (':' :: (vs ++ (',' :: rest))))) by
    simp [serMember, serStr]]
  rw [pfm_step, hval]
  have hsk : skipWs (',' :: rest) = ',' :: rest := skipWs_not_ws ',' rest (by decide)
  simp [hsk, hcont]

/-- Parsing the last member of an object, whose value parse is known,
closes the object. -/
theorem member_last (k : Nat) (acc : List (PyStr × Json)) (key vs : PyStr)
    (v : Json) (rest : PyStr)
    (hval : parseF k PMode.val (vs ++ (rbrace :: rest)) = some (v, rbrace :: rest)) :
    parseF (k + 1) (PMode.members acc) (serMember key vs (rbrace :: rest)) =
      some (Json.obj (acc ++ [(key, v)]), rest) := by
  rw [show serMember key vs (rbrace :: rest) =
      '"' :: (escChars key ++ ('"' :: (':' :: (vs ++ (rbrace :: rest))))) by
    simp [serMember, serStr]]
  rw [pfm_step, hval]
  have hsk : skipWs (rbrace :: rest) = rbrace :: rest :=
    skipWs_not_ws rbrace rest (by decide)
  simp [hsk, show rbrace ≠ ',' by decide]

/-- Entering a nonempty serialized object from value position. -/
theorem pv_obj_enter (k : Nat) (key vs tail : PyStr) (out : Option (Json × PyStr))
    (hcont : parseF k (PMode.members []) (serMember key vs tail) = out) :
    parseF (k + 1) PMode.val (lbrace :: serMember key vs tail) = out := by
  have hshape : serMember key vs tail =
      '"' :: (escChars key ++ ('"' :: (':' :: (vs ++ tail)))) := by
    simp [serMember, serStr]
  rw [pfv_lbrace, hshape]
  have hsk : skipWs ('"' :: (escChars key ++ ('"' :: (':' :: (vs ++ tail))))) =
      '"' :: (escChars key ++ ('"' :: (':' :: (vs ++ tail)))) :=
    skipWs_not_ws '"' _ (by decide)
  rw [hsk]
  simp only [show (('"' : Char) = rbrace) = False by simp; decide, if_false]
  rw [← hshape]
  exact hcont

/-- Completeness of the value parser on a serialized breakdown object. -/
theorem pv_breakdown (b : Breakdown) (k : Nat) (rest : PyStr) :
    parseF (k + 8) PMode.val (serBreakdown b ++ rest) = some (b.toJson, rest) := by
  have hser : serBreakdown b ++ rest = lbrace ::
      serMember (strLit "keyword_match") (serNat b.keyword_match) (',' ::
      serMember (strLit "experience_match") (serNat b.experience_match) (',' ::
      serMember (strLit "skills_match") (serNat b.skills_match) (',' ::
      serMember (strLit "education_match") (serNat b.education_match) (',' ::
      serMember (strLit "formatting") (serNat b.formatting) (',' ::
      serMember (strLit "readability") (serNat b.readability)
        (rbrace :: rest)))))) := by
    simp [serBreakdown, serMember, List.append_assoc]
  rw [hser]
  rw [show k + 8 = (k + 7) + 1 from rfl]
  apply pv_obj_enter
  rw [show k + 7 = (k + 6) + 1 from rfl]
  apply member_cons
  · rw [show k + 6 = (k + 5) + 1 from rfl]
    exact pv_nat (k + 5) _ _ (headStop_comma _)
  rw [show k + 6 = (k + 5) + 1 from rfl]
  apply member_cons
  · rw [show k + 5 = (k + 4) + 1 from rfl]
    exact pv_nat (k + 4) _ _ (headStop_comma _)
  rw [show k + 5 = (k + 4) + 1 from rfl]
  apply member_cons
  · rw [show k + 4 = (k + 3) + 1 from rfl]
    exact pv_nat (k + 3) _ _ (headStop_comma _)
  rw [show k + 4 = (k + 3) + 1 from rfl]
  apply member_cons
  · rw [show k + 3 = (k + 2) + 1 from rfl]
    exact pv_nat (k + 2) _ _ (headStop_comma _)
  rw [show k + 3 = (k + 2) + 1 from rfl]
  apply member_cons
  · rw [show k + 2 = (k + 1) + 1 from rfl]
    exact pv_nat (k + 1) _ _ (headStop_comma _)
  rw [show k + 2 = (k + 1) + 1 from rfl]
  have h6 : parseF (k + 1) PMode.val
      (serNat b.readability ++ (rbrace :: rest)) =
      some (Json.num (b.readability : ℚ), rbrace :: rest) :=
    pv_nat k _ _ (headStop_rbrace _)
  rw [member_last (k + 1) _ _ _ _ rest h6]
  simp [Breakdown.toJson]

/-- Completeness of the value parser on a serialized prediction object. -/
theorem pv_prediction (p : Prediction) (k : Nat) (rest : PyStr) :
    parseF (k + 5) PMode.val (serPrediction p ++ rest) = some (p.toJson, rest) := by
  have hser : serPrediction p ++ rest = lbrace ::
      serMember (strLit "pass_ats") (serBool p.pass_ats) (',' ::
      serMember (strLit "interview_probability") (serStr p.interview_probability) (',' ::
      serMember (strLit "shortlist_time") (serStr p.shortlist_time)
        (rbrace :: rest))) := by
    simp [serPrediction, serMember, List.append_assoc]
  rw [hser]
  rw [show k + 5 = (k + 4) + 1 from rfl]
  apply pv_obj_enter
  rw [show k + 4 = (k + 3) + 1 from rfl]
  apply member_cons
  · rw [show k + 3 = (k + 2) + 1 from rfl]
    exact pv_bool (k + 2) p.pass_ats _
  rw [show k + 3 = (k + 2) + 1 from rfl]
  apply member_cons
  · rw [show k + 2 = (k + 1) + 1 from rfl]
    exact pv_str (k + 1) p.interview_probability _
  rw [show k + 2 = (k + 1) + 1 from rfl]
  have h3 : parseF (k + 1) PMode.val
      (serStr p.shortlist_time ++ (rbrace :: rest)) =
      some (Json.str p.shortlist_time, rbrace :: rest) :=
    pv_str k p.shortlist_time _
  rw [member_last (k + 1) _ _ _ _ rest h3]
  simp [Prediction.toJson]

/-- Completeness of the value parser on a serialized keywords object. -/
theorem pv_keywords (kw : ScoreKeywords) (k : Nat) (rest : PyStr) :
    parseF (k + (kw.matched.length + kw.missing.length + kw.suggested.length) + 8)
        PMode.val (serKeywords kw ++ rest) = some (kw.toJson, rest) := by
  have hser : serKeywords kw ++ rest = lbrace ::
      serMember (strLit "matched") (serArr kw.matched) (',' ::
      serMember (strLit "missing") (serArr kw.missing) (',' ::
      serMember (strLit "suggested") (serArr kw.suggested)
        (rbrace :: rest))) := by
    simp [serKeywords, serMember, List.append_assoc]
  rw [hser]
  rw [show k + (kw.matched.length + kw.missing.length + kw.suggested.length) + 8 =
      (k + (kw.matched.length + kw.missing.length + kw.suggested.length) + 7) + 1
    from rfl]
  apply pv_obj_enter
  rw [show k + (kw.matched.length + kw.missing.length + kw.suggested.length) + 7 =
      (k + (kw.matched.length + kw.missing.length + kw.suggested.length) + 6) + 1
    from rfl]
  apply member_cons
  · rw [show k + (kw.matched.length + kw.missing.length + kw.suggested.length) + 6 =
        (k + kw.missing.length + kw.suggested.length + 4) + kw.matched.length + 2
      by omega]
    exact pv_arr kw.matched _ _
  rw [show k + (kw.matched.length + kw.missing.length + kw.suggested.length) + 6 =
      (k + (kw.matched.length + kw.missing.length + kw.suggested.length) + 5) + 1
    from rfl]
  apply member_cons
  · rw [show k + (kw.matched.length + kw.missing.length + kw.suggested.length) + 5 =
        (k + kw.matched.length + kw.suggested.length + 3) + kw.missing.length + 2
      by omega]
    exact pv_arr kw.missing _ _
  rw [show k + (kw.matched.length + kw.missing.length + kw.suggested.length) + 5 =
      (k + (kw.matched.length + kw.missing.length + kw.suggested.length) + 4) + 1
    from rfl]
  have h3 : parseF (k + (kw.matched.length + kw.missing.length + kw.suggested.length) + 4)
      PMode.val (serArr kw.suggested ++ (rbrace :: rest)) =
      some (Json.arr (kw.suggested.map Json.str), rbrace :: rest) := by
    rw [show k + (kw.matched.length + kw.missing.length + kw.suggested.length) + 4 =
        (k + kw.matched.length + kw.missing.length + 2) + kw.suggested.length + 2
      by omega]
    exact pv_arr kw.suggested _ _
  rw [member_last _ _ _ _ _ rest h3]
  simp [ScoreKeywords.toJson]

/-- Completeness of the value parser on a fully serialized structured
score. -/
theorem pv_score (S : StructuredScore) (k : Nat) (rest : PyStr) :
    parseF (k + (S.keywords.matched.length + S.keywords.missing.length +
        S.keywords.suggested.length + S.improvements.length +
        S.ats_optimization_tips.length) + 14)
      PMode.val (serializeScore S ++ rest) = some (S.toJson, rest) := by
  have hser : serializeScore S ++ rest = lbrace ::
      serMember (strLit "overall_score") (serNat S.overall_score) (',' ::
      serMember (strLit "breakdown") (serBreakdown S.breakdown) (',' ::
      serMember (strLit "prediction") (serPrediction S.prediction) (',' ::
      serMember (strLit "keywords") (serKeywords S.keywords) (',' ::
      serMember (strLit "improvements") (serArr S.improvements) (',' ::
      serMember (strLit "ats_optimization_tips") (serArr S.ats_optimization_tips)
        (rbrace :: rest)))))) := by
    simp [serializeScore, serMember, List.append_assoc]
  set L := S.keywords.matched.length + S.keywords.missing.length +
      S.keywords.suggested.length + S.improvements.length +
      S.ats_optimization_tips.length with hL
  rw [hser]
  rw [show k + L + 14 = (k + L + 13) + 1 from rfl]
  apply pv_obj_enter
  rw [show k + L + 13 = (k + L + 12) + 1 from rfl]
  apply member_cons
  · rw [show k + L + 12 = (k + L + 11) + 1 from rfl]
    exact pv_nat (k + L + 11) _ _ (headStop_comma _)
  rw [show k + L + 12 = (k + L + 11) + 1 from rfl]
  apply member_cons
  · rw [show k + L + 11 = (k + L + 3) + 8 by omega]
    exact pv_breakdown S.breakdown _ _
  rw [show k + L + 11 = (k + L + 10) + 1 from rfl]
  apply member_cons
  · rw [show k + L + 10 = (k + L + 5) + 5 by omega]
    exact pv_prediction S.prediction _ _
  rw [show k + L + 10 = (k + L + 9) + 1 from rfl]
  apply member_cons
  · rw [show k + L + 9 = (k + S.improvements.length + S.ats_optimization_tips.length + 1) +
        (S.keywords.matched.length + S.keywords.missing.length +
          S.keywords.suggested.length) + 8 by rw [hL]; omega]
    exact pv_keywords S.keywords _ _
  rw [show k + L + 9 = (k + L + 8) + 1 from rfl]
  apply member_cons
  · rw [show k + L + 8 = (k + S.keywords.matched.length + S.keywords.missing.length +
        S.keywords.suggested.length + S.ats_optimization_tips.length + 6) +
        S.improvements.length + 2 by rw [hL]; omega]
    exact pv_arr S.improvements _ _
  rw [show k + L + 8 = (k + L + 7) + 1 from rfl]
  have h6 : parseF (k + L + 7) PMode.val
      (serArr S.ats_optimization_tips ++ (rbrace :: rest)) =
      some (Json.arr (S.ats_optimization_tips.map Json.str), rbrace :: rest) := by
    rw [show k + L + 7 = (k + S.keywords.matched.length + S.keywords.missing.length +
        S.keywords.suggested.length + S.improvements.length + 5) +
        S.ats_optimization_tips.length + 2 by rw [hL]; omega]
    exact pv_arr S.ats_optimization_tips _ _
  rw [member_last _ _ _ _ _ rest h6]
  simp [StructuredScore.toJson]

-- ============ json_loads on a serialized score ============

/-- Escaping does not shorten a string. -/
theorem len_escChars (s : PyStr) : s.length ≤ (escChars s).length := by
  induction s with
  | nil => simp [escChars]
  | cons c t ih =>
    have h : 1 ≤ (escChar c).length := by
      unfold escChar
      by_cases h1 : c = '"'
      · simp [h1]
      · by_cases h2 : c = '\\' <;> simp [h1, h2]
    simp only [escChars, List.length_cons, List.length_append]
    omega

/-- A serialized array is at least as long as two brackets plus one
character per element. -/
theorem len_serArr (l : List PyStr) : l.length + 2 ≤ (serArr l).length := by
  cases l with
  | nil => simp [serArr, strLit]
  | cons x xs =>
    have htail : ∀ ys : List PyStr, ys.length + 1 ≤ (serElemsTail ys).length := by
      intro ys
      induction ys with
      | nil => simp [serElemsTail]
      | cons y t ih =>
        simp only [serElemsTail, List.length_cons, List.length_append, serStr]
        omega
    have h2 := htail xs
    simp only [serArr, serStr, List.length_cons, List.length_append]
    omega

/-- Lower bound on the length of a serialized score, enough to feed the
length based fuel of json_loads. -/
theorem len_serializeScore (S : StructuredScore) :
    S.keywords.matched.length + S.keywords.missing.length +
      S.keywords.suggested.length + S.improvements.length +
      S.ats_optimization_tips.length + 13 ≤ (serializeScore S).length := by
  have h1 := len_serArr S.keywords.matched
  have h2 := len_serArr S.keywords.missing
  have h3 := len_serArr S.keywords.suggested
  have h4 := len_serArr S.improvements
  have h5 := len_serArr S.ats_optimization_tips
  simp only [serializeScore, serMember, serStr, serBreakdown, serPrediction,
    serKeywords, serNat, List.length_append, List.length_cons]
  omega

/-- json.loads recovers the denotation of a serialized score. -/
theorem json_loads_serialize (S : StructuredScore) :
    json_loads (serializeScore S) = some S.toJson := by
  unfold json_loads
  have hlen := len_serializeScore S
  rw [show (serializeScore S).length + 1 =
      ((serializeScore S).length - (S.keywords.matched.length +
        S.keywords.missing.length + S.keywords.suggested.length +
        S.improvements.length + S.ats_optimization_tips.length + 13)) +
      (S.keywords.matched.length + S.keywords.missing.length +
        S.keywords.suggested.length + S.improvements.length +
        S.ats_optimization_tips.length) + 14 by omega]
  have hp := pv_score S ((serializeScore S).length -
      (S.keywords.matched.length + S.keywords.missing.length +
        S.keywords.suggested.length + S.improvements.length +
        S.ats_optimization_tips.length + 13)) []
  rw [List.append_nil] at hp
  rw [hp]
  simp [skipWs]

-- ============ The regex span on embedded JSON ============

/-- dropWhile passes over a prefix on which the predicate holds. -/
theorem dropWhile_append_all (f : Char → Bool) (p l : PyStr)
    (hp : ∀ c ∈ p, f c = true) :
    List.dropWhile f (p ++ l) = List.dropWhile f l := by
  induction p with
  | nil => simp
  | cons c t ih =>
    rw [List.cons_append, List.dropWhile_cons, if_pos (hp c (by simp))]
    exact ih (fun c hc => hp c (by simp [hc]))

/-- The greedy regex span of a text made of a prefix without opening
brace, a brace delimited middle, and a suffix without closing brace, is
exactly the middle. -/
theorem findSpan_exact (p m q : PyStr) (hp : lbrace ∉ p) (hq : rbrace ∉ q) :
    findSpan (p ++ ((lbrace :: (m ++ [rbrace])) ++ q)) =
      some (lbrace :: (m ++ [rbrace])) := by
  have ht : List.dropWhile (fun c => decide (c ≠ lbrace))
      (p ++ ((lbrace :: (m ++ [rbrace])) ++ q)) =
      lbrace :: ((m ++ [rbrace]) ++ q) := by
    rw [dropWhile_append_all _ p _ (fun c hc => by
      simp only [decide_eq_true_eq]
      exact fun h => hp (h ▸ hc))]
    rw [List.cons_append, List.dropWhile_cons]
    simp
  have hu : List.dropWhile (fun c => decide (c ≠ rbrace))
      (lbrace :: ((m ++ [rbrace]) ++ q)).reverse =
      rbrace :: (m.reverse ++ [lbrace]) := by
    have hrev : (lbrace :: ((m ++ [rbrace]) ++ q)).reverse =
        q.reverse ++ (rbrace :: (m.reverse ++ [lbrace])) := by
      simp
    rw [hrev]
    rw [dropWhile_append_all _ q.reverse _ (fun c hc => by
      simp only [decide_eq_true_eq]
      exact fun h => hq (h ▸ (List.mem_reverse.mp hc)))]
    rw [List.dropWhile_cons]
    simp
  unfold findSpan
  rw [ht]
  dsimp only
  rw [hu]
  simp

-- ============ Shape of a serialized score and the interpreter ============

/-- A member whose tail ends in the closing brace ends in the closing
brace. -/
theorem serMember_shape (key v tail : PyStr)
    (h : ∃ m0, tail = m0 ++ [rbrace]) :
    ∃ m1, serMember key v tail = m1 ++ [rbrace] := by
  obtain ⟨m0, rfl⟩ := h
  exact ⟨serStr key ++ (':' :: (v ++ m0)), by simp [serMember, List.append_assoc]⟩

/-- Prepending a comma preserves ending in the closing brace. -/
theorem comma_shape (t : PyStr) (h : ∃ m0, t = m0 ++ [rbrace]) :
    ∃ m1, (',' : Char) :: t = m1 ++ [rbrace] := by
  obtain ⟨m0, rfl⟩ := h
  exact ⟨',' :: m0, by simp⟩

/-- A serialized score starts with the opening brace and ends with the
closing brace. -/
theorem serializeScore_shape (S : StructuredScore) :
    ∃ mid, serializeScore S = lbrace :: (mid ++ [rbrace]) := by
  have h1 := serMember_shape (strLit "ats_optimization_tips")
    (serArr S.ats_optimization_tips) [rbrace] ⟨[], by simp⟩
  have h2 := comma_shape _ h1
  have h3 := serMember_shape (strLit "improvements") (serArr S.improvements) _ h2
  have h4 := comma_shape _ h3
  have h5 := serMember_shape (strLit "keywords") (serKeywords S.keywords) _ h4
  have h6 := comma_shape _ h5
  have h7 := serMember_shape (strLit "prediction") (serPrediction S.prediction) _ h6
  have h8 := comma_shape _ h7
  have h9 := serMember_shape (strLit "breakdown") (serBreakdown S.breakdown) _ h8
  have h10 := comma_shape _ h9
  have h11 := serMember_shape (strLit "overall_score") (serNat S.overall_score) _ h10
  obtain ⟨mid, hmid⟩ := h11
  refine ⟨mid, ?_⟩
  unfold serializeScore
  rw [hmid]

/-- json.loads fails on a serialized score followed by trailing non
whitespace data. -/
theorem json_loads_serialize_trailing (S : StructuredScore) (suf : PyStr)
    (hsuf : ¬ skipWs suf = []) :
    json_loads (serializeScore S ++ suf) = none := by
  unfold json_loads
  have hlen := len_serializeScore S
  rw [show (serializeScore S ++ suf).length + 1 =
      ((serializeScore S ++ suf).length -
        (S.keywords.matched.length + S.keywords.missing.length +
          S.keywords.suggested.length + S.improvements.length +
          S.ats_optimization_tips.length + 13)) +
      (S.keywords.matched.length + S.keywords.missing.length +
        S.keywords.suggested.length + S.improvements.length +
        S.ats_optimization_tips.length) + 14 by
    rw [List.length_append]
    omega]
  rw [pv_score S _ suf]
  simp [hsuf]

/-- Core round trip: in ats_score mode, a serialized well shaped score
embedded between a prefix without opening brace and a suffix without
closing brace is located by the greedy regex and parsed back to its
denotation. -/
theorem interp_roundtrip (S : StructuredScore) (pre suf : PyStr)
    (hpre : lbrace ∉ pre) (hsuf : rbrace ∉ suf) :
    interpretResponse (strLit "ats_score") (pre ++ (serializeScore S ++ suf)) =
      Payload.score S.toJson := by
  obtain ⟨mid, hmid⟩ := serializeScore_shape S
  unfold interpretResponse
  rw [if_pos rfl]
  rw [hmid]
  rw [show pre ++ ((lbrace :: (mid ++ [rbrace])) ++ suf) =
      pre ++ ((lbrace :: (mid ++ [rbrace])) ++ suf) from rfl]
  rw [findSpan_exact pre mid suf hpre hsuf]
  rw [← hmid]
  simp [json_loads_serialize S]

/-- C4 amended: in ats_score mode the interpreter locates the span from
the first opening brace to the last closing brace (the greedy regex), so
a serialized well formed score round trips through interpretation
whenever the surrounding commentary has no opening brace before the JSON
and no closing brace after it. -/
theorem ats_roundtrip_amended (S : StructuredScore) (pre suf : PyStr)
    (hS : wellFormed S) (hpre : lbrace ∉ pre) (hsuf : rbrace ∉ suf) :
    interpretResponse (strLit "ats_score") (pre ++ (serializeScore S ++ suf)) =
      Payload.score S.toJson :=
  interp_roundtrip S pre suf hpre hsuf

set_option maxRecDepth 100000 in
/-- C4 counterexample: the span extraction is not the first balanced
brace delimited substring: with a well formed score embedded whole, a
single closing brace in the trailing commentary (or an opening brace in
the leading commentary) makes the greedy span unparseable, and
interpretation falls back to raw text instead of round tripping the
score. -/
theorem ats_greedy_counterexample :
    wellFormed sampleScore ∧
    c4SuffixRaw = serializeScore sampleScore ++ strLit " Hope this helps :\x7d" ∧
    c4PrefixRaw = strLit "\x7b oops " ++ serializeScore sampleScore ∧
    interpretResponse (strLit "ats_score") c4SuffixRaw = Payload.text c4SuffixRaw ∧
    interpretResponse (strLit "ats_score") c4PrefixRaw = Payload.text c4PrefixRaw ∧
    Payload.text c4SuffixRaw ≠ Payload.score sampleScore.toJson ∧
    Payload.text c4PrefixRaw ≠ Payload.score sampleScore.toJson :=
  ⟨by unfold wellFormed simpleStr; decide, rfl, rfl, rfl, rfl,
    fun h => Payload.noConfusion h, fun h => Payload.noConfusion h⟩

set_option maxRecDepth 100000 in
/-- Witness for the amended C4 round trip at a concrete score and
concrete surrounding commentary. -/
theorem ats_roundtrip_amended_witness :
    wellFormed sampleScore ∧ lbrace ∉ strLit "Result: " ∧ rbrace ∉ strLit " Thanks!" ∧
    interpretResponse (strLit "ats_score")
        (strLit "Result: " ++ (serializeScore sampleScore ++ strLit " Thanks!")) =
      Payload.score sampleScore.toJson :=
  ⟨by unfold wellFormed simpleStr; decide, by decide, by decide,
    ats_roundtrip_amended sampleScore (strLit "Result: ") (strLit " Thanks!")
      (by unfold wellFormed simpleStr; decide) (by decide) (by decide)⟩

/-- C5: in ats_score mode, when the regex finds no span or the span is
not valid JSON, interpretation returns the raw text unchanged (and, being
a total function, never raises). -/
theorem ats_fallback_on_parse_failure (raw : PyStr)
    (h : findSpan raw = none ∨
      ∃ span, findSpan raw = some span ∧ json_loads span = none) :
    interpretResponse (strLit "ats_score") raw = Payload.text raw := by
  unfold interpretResponse
  rw [if_pos rfl]
  rcases h with h | ⟨span, hs, hj⟩
  · rw [h]
  · rw [hs]
    simp [hj]

/-- Witness for the C5 fallback at a concrete response without any brace
delimited substring. -/
theorem ats_fallback_witness :
    findSpan c5Raw = none ∧
    interpretResponse (strLit "ats_score") c5Raw = Payload.text c5Raw :=
  ⟨by decide, ats_fallback_on_parse_failure c5Raw (Or.inl (by decide))⟩

/-- C9 counterexample: interpretation performs no range validation, so a
model response whose JSON carries an overall score of 150 produces a
score payload whose overall score lies outside 0..100. -/
theorem ats_range_not_enforced :
    interpretResponse (strLit "ats_score") c9Raw =
      Payload.score (Json.obj [(strLit "overall_score", Json.num 150)]) ∧
    getField (Json.obj [(strLit "overall_score", Json.num 150)])
        (strLit "overall_score") = some (Json.num 150) ∧
    ¬ ((150 : ℚ) ≤ 100) :=
  ⟨rfl, rfl, by norm_num⟩

/-- C9 amended: a payload obtained by interpreting a well formed
serialized score has its overall score and all six breakdown sub scores
inside 0..100; the range holds because the embedded JSON satisfied it,
not because the code checks it. -/
theorem ats_payload_range_wellformed (S : StructuredScore) (pre suf : PyStr)
    (hS : wellFormed S) (hpre : lbrace ∉ pre) (hsuf : rbrace ∉ suf) :
    interpretResponse (strLit "ats_score") (pre ++ (serializeScore S ++ suf)) =
      Payload.score S.toJson ∧
    getField S.toJson (strLit "overall_score") =
      some (Json.num (S.overall_score : ℚ)) ∧
    getField S.toJson (strLit "breakdown") = some S.breakdown.toJson ∧
    ((0 : ℚ) ≤ (S.overall_score : ℚ) ∧ (S.overall_score : ℚ) ≤ 100) ∧
    getField S.breakdown.toJson (strLit "keyword_match") =
      some (Json.num (S.breakdown.keyword_match : ℚ)) ∧
    getField S.breakdown.toJson (strLit "experience_match") =
      some (Json.num (S.breakdown.experience_match : ℚ)) ∧
    getField S.breakdown.toJson (strLit "skills_match") =
      some (Json.num (S.breakdown.skills_match : ℚ)) ∧
    getField S.breakdown.toJson (strLit "education_match") =
      some (Json.num (S.breakdown.education_match : ℚ)) ∧
    getField S.breakdown.toJson (strLit "formatting") =
      some (Json.num (S.breakdown.formatting : ℚ)) ∧
    getField S.breakdown.toJson (strLit "readability") =
      some (Json.num (S.breakdown.readability : ℚ)) ∧
    (∀ q ∈ [(S.breakdown.keyword_match : ℚ), (S.breakdown.experience_match : ℚ),
        (S.breakdown.skills_match : ℚ), (S.breakdown.education_match : ℚ),
        (S.breakdown.formatting : ℚ), (S.breakdown.readability : ℚ)],
      (0 : ℚ) ≤ q ∧ q ≤ 100) := by
  obtain ⟨h0, h1, h2, h3, h4, h5, h6, -⟩ := hS
  refine ⟨interp_roundtrip S pre suf hpre hsuf, rfl, rfl,
    ⟨by positivity, by exact_mod_cast h0⟩, rfl, rfl, rfl, rfl, rfl, rfl, ?_⟩
  intro q hq
  simp only [List.mem_cons, List.not_mem_nil, or_false] at hq
  rcases hq with rfl | rfl | rfl | rfl | rfl | rfl <;>
    refine ⟨by positivity, ?_⟩
  · exact_mod_cast h1
  · exact_mod_cast h2
  · exact_mod_cast h3
  · exact_mod_cast h4
  · exact_mod_cast h5
  · exact_mod_cast h6

/-- Witness for the amended C9 range property at a concrete score. -/
theorem ats_payload_range_witness :
    wellFormed sampleScore ∧
    interpretResponse (strLit "ats_score")
        ([] ++ (serializeScore sampleScore ++ [])) =
      Payload.score sampleScore.toJson :=
  ⟨by unfold wellFormed simpleStr; decide,
    (ats_payload_range_wellformed sampleScore [] [] (by unfold wellFormed simpleStr; decide)
      (by decide) (by decide)).1⟩
